import Mathlib

/-!
Verification of the asynchronous retrying request-dispatch layer
(`arangod/Network/Methods.cpp`, `arangod/Network/NetworkFeature.cpp`).

The embedding models times as natural numbers of milliseconds (the source
uses `std::chrono::steady_clock` time points and casts durations to
milliseconds before handing them to the wire layer).  Each physical attempt
of the retrying state machine `RequestsState` is driven by an environment
record holding the clock samples and the outcomes of the external
collaborators (destination resolver, connection pool, transport, timer)
observed during that attempt.
-/

namespace Network

/-- Transport-level error conditions (`fuerte::ErrorCondition`).  The source
carries them as integers (`fuerte::Error`) and converts with
`intToError`/`errorToInt`; the `other` constructor stands for every code the
`switch` in `handleResponse` sends to its `default` branch. -/
inductive FuerteError where
  | noError
  | couldNotConnect
  | timeout
  | canceled
  | other (code : Nat)
deriving DecidableEq, Repr

/-- The part of a wire response (`fuerte::Response`) the dispatch layer
inspects: the HTTP status code and the application error code encoded in the
body (`network::errorCodeFromBody(res->slice())`). -/
structure WireResponse where
  statusCode : Nat
  bodyErrorCode : Nat
deriving DecidableEq, Repr

/-- `network::Response`: destination id, transport error code, and the raw
wire response when one exists. -/
structure Response where
  destination : String
  error : FuerteError
  response : Option WireResponse
deriving DecidableEq, Repr

/-- The part of the wire request built by `prepareRequest` that the claims
observe: the payload bytes handed to `fuerte::createRequest` and the timeout
installed by `req->timeout(...)`, in milliseconds. -/
structure WireRequest where
  payload : List Nat
  timeoutMs : Nat
deriving DecidableEq, Repr

/-- `fuerte::StatusOK`. -/
def StatusOK : Nat := 200

/-- `fuerte::StatusCreated`. -/
def StatusCreated : Nat := 201

/-- `fuerte::StatusAccepted`. -/
def StatusAccepted : Nat := 202

/-- `fuerte::StatusNoContent`. -/
def StatusNoContent : Nat := 204

/-- `fuerte::StatusNotFound`. -/
def StatusNotFound : Nat := 404

/-- `TRI_ERROR_ARANGO_DATA_SOURCE_NOT_FOUND` (ArangoDB error 1203). -/
def TRI_ERROR_ARANGO_DATA_SOURCE_NOT_FOUND : Nat := 1203

/-- The four-way status test of `RequestsState::handleResponse` in the
`NoError` case (`res->statusCode() == fuerte::StatusOK || ... Created || ...
Accepted || ... NoContent`). -/
def isSuccessStatus (status : Nat) : Bool :=
  status == StatusOK || status == StatusCreated ||
  status == StatusAccepted || status == StatusNoContent

/-- The state of one logical retrying request
(`RequestsState`, Methods.cpp).  `startTime` is sampled at construction and
`endTime = startTime + timeout`; both are `const` in the source.  The
payload buffer is moved into the state once, in the constructor. -/
structure RequestsState where
  destination : String
  payload : List Nat
  startTime : Nat
  endTime : Nat
  retryOnCollNotFound : Bool
deriving DecidableEq, Repr

/-- The `RequestsState` constructor: `_endTime(_startTime + timeout)`. -/
def RequestsState.mk' (destination : String) (payload : List Nat)
    (startTime : Nat) (timeout : Nat) (retryNotFound : Bool) : RequestsState :=
  ⟨destination, payload, startTime, startTime + timeout, retryNotFound⟩

/-- Environment of one physical attempt: the clock sample and shutdown flag
read at the top of `RequestsState::sendRequest`, the results of
`resolveDestination` and `NetworkFeature::pool()`, then (if a send happened)
the transport completion `(err, res)` handed to `handleResponse`, the clock
sample taken there, and whether the armed retry timer was cancelled
(`asio` hands the wait lambda a non-zero error code) instead of firing. -/
structure AttemptEnv where
  now : Nat
  isStopping : Bool
  resolveOk : Bool
  poolAvailable : Bool
  completionTime : Nat
  err : FuerteError
  res : Option WireResponse
  timerCancelled : Bool
deriving DecidableEq, Repr

/-- Result of running the synchronous prefix of `RequestsState::sendRequest`:
either the completion callback was invoked immediately with a `Response`, or
a wire request was dispatched on a leased connection.  `didResolve` and
`didLease` record whether `resolveDestination` and
`pool->leaseConnection` were reached in that attempt. -/
structure SendStepResult where
  immediate : Option Response
  dispatched : Option WireRequest
  didResolve : Bool
  didLease : Bool
deriving DecidableEq, Repr

/-- `RequestsState::sendRequest` (Methods.cpp).  In source order: the
deadline/shutdown check (`now > _endTime || ...isStopping()`) terminates with
`Timeout` before any I/O; a failed `resolveDestination` terminates with
`Canceled`; a null `NetworkFeature::pool()` terminates with `Canceled` before
any lease; otherwise a connection is leased and `prepareRequest` is handed
`_payload` (by lvalue, never moved) and the timeout
`_endTime - _startTime` cast to milliseconds. -/
def RequestsState.sendRequest (s : RequestsState) (env : AttemptEnv) : SendStepResult :=
  if s.endTime < env.now ∨ env.isStopping = true then
    ⟨some ⟨s.destination, FuerteError.timeout, none⟩, none, false, false⟩
  else if env.resolveOk = false then
    ⟨some ⟨s.destination, FuerteError.canceled, none⟩, none, true, false⟩
  else if env.poolAvailable = false then
    ⟨some ⟨s.destination, FuerteError.canceled, none⟩, none, true, false⟩
  else
    ⟨none, some ⟨s.payload, s.endTime - s.startTime⟩, true, true⟩

/-- Result of `RequestsState::handleResponse`: either the completion
callback fires with a `Response`, or a one-shot retry timer is armed at the
given absolute due time. -/
inductive HandleStep where
  | terminate (r : Response)
  | armTimer (dueTime : Nat)
deriving DecidableEq, Repr

/-- The clamp applied to `tryAgainAfter = now - _startTime` in
`handleResponse`: raised to 200 ms when below, lowered to 10 s (10000 ms)
when above. -/
def clampBackoff (elapsed : Nat) : Nat :=
  if elapsed < 200 then 200
  else if 10000 < elapsed then 10000
  else elapsed

/-- The shared backoff block of `handleResponse` (the body of the
`CouldNotConnect`/`Timeout` case, also reached by the intentional
fall-through from the retryable Not-Found case): clamp the elapsed time,
compute `dueTime = now + tryAgainAfter`, terminate with the attempt's
original `err` and `res` when `dueTime >= _endTime`, otherwise arm the
timer for `dueTime`. -/
def RequestsState.backoff (s : RequestsState) (now : Nat) (err : FuerteError)
    (res : Option WireResponse) : HandleStep :=
  let tryAgainAfter := clampBackoff (now - s.startTime)
  let dueTime := now + tryAgainAfter
  if s.endTime ≤ dueTime then HandleStep.terminate ⟨s.destination, err, res⟩
  else HandleStep.armTimer dueTime

/-- The retryable Not-Found test of `handleResponse`:
`res->statusCode() == fuerte::StatusNotFound && _retryOnCollNotFound &&
TRI_ERROR_ARANGO_DATA_SOURCE_NOT_FOUND == network::errorCodeFromBody(...)`. -/
def retryableNotFound (s : RequestsState) (r : WireResponse) : Bool :=
  r.statusCode == StatusNotFound && s.retryOnCollNotFound &&
  r.bodyErrorCode == TRI_ERROR_ARANGO_DATA_SOURCE_NOT_FOUND

/-- `RequestsState::handleResponse` (Methods.cpp).  The `switch` on
`intToError(err)`: `NoError` with a successful status terminates with
`NoError` and the response; `NoError` with the retryable Not-Found
combination falls through to the backoff block with the original `err`;
`NoError` with any other status terminates with `Canceled` carrying the
response; `CouldNotConnect` and `Timeout` go to the backoff block; every
other error terminates with that error unmodified.  In the `NoError` case
the source asserts `TRI_ASSERT(res)`; the `none` branch here is that
unreachable assertion failure. -/
def RequestsState.handleResponse (s : RequestsState) (now : Nat)
    (err : FuerteError) (res : Option WireResponse) : HandleStep :=
  match err with
  | FuerteError.noError =>
    match res with
    | some r =>
      if isSuccessStatus r.statusCode then
        HandleStep.terminate ⟨s.destination, FuerteError.noError, some r⟩
      else if retryableNotFound s r then
        s.backoff now FuerteError.noError (some r)
      else
        HandleStep.terminate ⟨s.destination, FuerteError.canceled, some r⟩
    | none => HandleStep.terminate ⟨s.destination, FuerteError.noError, none⟩
  | FuerteError.couldNotConnect => s.backoff now err res
  | FuerteError.timeout => s.backoff now err res
  | err => HandleStep.terminate ⟨s.destination, err, res⟩

/-- The classification `handleResponse` retries on, as a predicate for
theorem statements: a `CouldNotConnect` or `Timeout` transport error, or a
completed exchange whose response is the retryable Not-Found combination. -/
def retryableOutcome (s : RequestsState) (err : FuerteError)
    (res : Option WireResponse) : Bool :=
  match err, res with
  | FuerteError.couldNotConnect, _ => true
  | FuerteError.timeout, _ => true
  | FuerteError.noError, some r => retryableNotFound s r
  | _, _ => false

/-- Outcome of a whole logical request run over a list of per-attempt
environments: `delivered r reqs` means the completion callback fired exactly
once with `r` after dispatching the wire requests `reqs`; `dropped reqs`
means an armed timer was cancelled and the callback never fired;
`exhausted reqs` is the model artifact of running out of supplied attempt
environments while a timer was still due to fire. -/
inductive RunResult where
  | delivered (r : Response) (requests : List WireRequest)
  | dropped (requests : List WireRequest)
  | exhausted (requests : List WireRequest)
deriving DecidableEq, Repr

/-- Prepend a dispatched wire request to the request trace of a run. -/
def RunResult.consRequest (req : WireRequest) : RunResult → RunResult
  | RunResult.delivered r reqs => RunResult.delivered r (req :: reqs)
  | RunResult.dropped reqs => RunResult.dropped (req :: reqs)
  | RunResult.exhausted reqs => RunResult.exhausted (req :: reqs)

/-- The wire requests dispatched during a run. -/
def RunResult.requests : RunResult → List WireRequest
  | RunResult.delivered _ reqs => reqs
  | RunResult.dropped reqs => reqs
  | RunResult.exhausted reqs => reqs

/-- How many times the completion callback fired during a run. -/
def RunResult.cbCount : RunResult → Nat
  | RunResult.delivered _ _ => 1
  | RunResult.dropped _ => 0
  | RunResult.exhausted _ => 0

/-- One logical request's lifecycle (`sendRequestRetry` and the
attempt/timer loop of `RequestsState`), driven by one environment per
physical attempt: run `sendRequest`; if it dispatched, classify the
completion with `handleResponse`; a terminal step fires the callback; an
armed timer either gets cancelled (the wait lambda sees `ec != 0` and does
nothing — the callback never fires) or fires and re-enters `sendRequest`
with the next attempt's environment. -/
def run (s : RequestsState) : List AttemptEnv → RunResult
  | [] => RunResult.exhausted []
  | env :: rest =>
    let step := s.sendRequest env
    match step.immediate, step.dispatched with
    | some r, _ => RunResult.delivered r []
    | none, some req =>
      match s.handleResponse env.completionTime env.err env.res with
      | HandleStep.terminate r => RunResult.delivered r [req]
      | HandleStep.armTimer _ =>
        if env.timerCancelled then RunResult.dropped [req]
        else RunResult.consRequest req (run s rest)
    | none, none => RunResult.exhausted []

end Network

namespace NetworkFeatureModel

/-- The tunables owned by `NetworkFeature` (NetworkFeature.cpp): IO thread
count, max open connections, connection TTL in milliseconds, TLS host
verification.  All three numeric options are `uint64_t` in the source; the
clamps below never overflow, so plain naturals model them exactly. -/
structure NetworkOptions where
  numIOThreads : Nat
  maxOpenConnections : Nat
  connectionTtlMilli : Nat
  verifyHosts : Bool
deriving DecidableEq, Repr

/-- `NetworkFeature::validateOptions`:
`_numIOThreads = std::min<uint64_t>(1, std::max<uint64_t>(8, _numIOThreads))`,
`_maxOpenConnections` raised to 8 when below, `_connectionTtlMilli` raised
to 10000 when below. -/
def validateOptions (o : NetworkOptions) : NetworkOptions :=
  ⟨min 1 (max 8 o.numIOThreads),
   if o.maxOpenConnections < 8 then 8 else o.maxOpenConnections,
   if o.connectionTtlMilli < 10000 then 10000 else o.connectionTtlMilli,
   o.verifyHosts⟩

/-- The two externally visible actions of `NetworkFeature::beginShutdown`:
storing `nullptr` into the published atomic pool pointer
(`_poolPtr.store(nullptr, std::memory_order_release)`) and tearing the pool
down (`_pool->shutdown()`). -/
inductive ShutdownAction where
  | publishNullPool
  | poolShutdown
deriving DecidableEq, Repr

/-- `NetworkFeature::beginShutdown`, as the sequence of actions it performs:
it first publishes the null pool pointer, then, when a pool exists, shuts it
down. -/
def beginShutdown (poolExists : Bool) : List ShutdownAction :=
  ShutdownAction.publishNullPool ::
    (if poolExists then [ShutdownAction.poolShutdown] else [])

end NetworkFeatureModel

namespace Network

/-- Environment of the single-attempt entry point `network::sendRequest`:
pool availability, destination resolution, and the transport completion
`(err, res)` the connection's callback eventually delivers. -/
structure SingleEnv where
  poolAvailable : Bool
  resolveOk : Bool
  err : FuerteError
  res : Option WireResponse
deriving DecidableEq, Repr

/-- The single-attempt `network::sendRequest` (Methods.cpp): a null
`NetworkFeature::pool()` resolves the future to `Canceled`; a failed
`resolveDestination` resolves it to `Canceled`; otherwise the transport's
completion callback fulfils the promise with
`Response{destination, err, std::move(res)}` — the raw transport error code
and response, with no status classification and no retry. -/
def sendRequest (destination : String) (env : SingleEnv) : Response :=
  if env.poolAvailable = false then ⟨destination, FuerteError.canceled, none⟩
  else if env.resolveOk = false then ⟨destination, FuerteError.canceled, none⟩
  else ⟨destination, env.err, env.res⟩

end Network

namespace Network

theorem clampBackoff_lower (e : Nat) : 200 ≤ clampBackoff e := by
  unfold clampBackoff
  split
  · omega
  · split <;> omega

theorem clampBackoff_upper (e : Nat) : clampBackoff e ≤ 10000 := by
  unfold clampBackoff
  split
  · omega
  · split <;> omega

theorem retryableNotFound_status {s : RequestsState} {r : WireResponse}
    (h : retryableNotFound s r = true) : r.statusCode = StatusNotFound := by
  simp only [retryableNotFound, Bool.and_eq_true, beq_iff_eq] at h
  exact h.1.1

theorem isSuccessStatus_of_retryableNotFound {s : RequestsState} {r : WireResponse}
    (h : retryableNotFound s r = true) : isSuccessStatus r.statusCode = false := by
  rw [retryableNotFound_status h]
  decide

theorem handleResponse_eq_backoff {s : RequestsState} {now : Nat}
    {err : FuerteError} {res : Option WireResponse}
    (h : retryableOutcome s err res = true) :
    s.handleResponse now err res = s.backoff now err res := by
  cases err with
  | noError =>
    cases res with
    | none => simp [retryableOutcome] at h
    | some r =>
      have hr : retryableNotFound s r = true := h
      simp [RequestsState.handleResponse, isSuccessStatus_of_retryableNotFound hr, hr]
  | couldNotConnect => rfl
  | timeout => rfl
  | canceled => simp [retryableOutcome] at h
  | other code => simp [retryableOutcome] at h

theorem backoff_terminate {s : RequestsState} {now : Nat} {err : FuerteError}
    {res : Option WireResponse}
    (h : s.endTime ≤ now + clampBackoff (now - s.startTime)) :
    s.backoff now err res = HandleStep.terminate ⟨s.destination, err, res⟩ := by
  simp [RequestsState.backoff, h]

theorem backoff_armTimer {s : RequestsState} {now : Nat} {err : FuerteError}
    {res : Option WireResponse}
    (h : now + clampBackoff (now - s.startTime) < s.endTime) :
    s.backoff now err res = HandleStep.armTimer (now + clampBackoff (now - s.startTime)) := by
  simp [RequestsState.backoff]
  omega

theorem sendRequest_dispatched_inv {s : RequestsState} {env : AttemptEnv}
    {req : WireRequest} (h : (s.sendRequest env).dispatched = some req) :
    req = ⟨s.payload, s.endTime - s.startTime⟩ := by
  unfold RequestsState.sendRequest at h
  split at h
  · simp at h
  · split at h
    · simp at h
    · split at h
      · simp at h
      · simp at h
        exact h.symm

theorem sendRequest_cases (s : RequestsState) (env : AttemptEnv) :
    s.sendRequest env = ⟨some ⟨s.destination, FuerteError.timeout, none⟩, none, false, false⟩ ∨
    s.sendRequest env = ⟨some ⟨s.destination, FuerteError.canceled, none⟩, none, true, false⟩ ∨
    s.sendRequest env = ⟨none, some ⟨s.payload, s.endTime - s.startTime⟩, true, true⟩ := by
  unfold RequestsState.sendRequest
  split
  · exact Or.inl rfl
  · split
    · exact Or.inr (Or.inl rfl)
    · split
      · exact Or.inr (Or.inl rfl)
      · exact Or.inr (Or.inr rfl)

theorem consRequest_requests (q : WireRequest) (r : RunResult) :
    (RunResult.consRequest q r).requests = q :: r.requests := by
  cases r <;> rfl

theorem run_reenters_on_timer_fire (s : RequestsState) (env : AttemptEnv)
    (rest : List AttemptEnv) (req : WireRequest) (d : Nat)
    (_hI : (s.sendRequest env).immediate = none)
    (hD : (s.sendRequest env).dispatched = some req)
    (hH : s.handleResponse env.completionTime env.err env.res = HandleStep.armTimer d)
    (hT : env.timerCancelled = false) :
    run s (env :: rest) = RunResult.consRequest req (run s rest) := by
  rcases sendRequest_cases s env with h | h | h
  · rw [h] at hD
    simp at hD
  · rw [h] at hD
    simp at hD
  · rw [h] at hD
    simp at hD
    simp only [run, h, hH, hD, hT]
    rfl

theorem run_requests_payload (s : RequestsState)
    (envs : List AttemptEnv) (req : WireRequest)
    (h : req ∈ (run s envs).requests) : req.payload = s.payload := by
  induction envs with
  | nil => simp [run, RunResult.requests] at h
  | cons env rest ih =>
    rcases sendRequest_cases s env with hs | hs | hs
    · simp [run, hs, RunResult.requests] at h
    · simp [run, hs, RunResult.requests] at h
    · rcases hh : s.handleResponse env.completionTime env.err env.res with r | d
      · simp [run, hs, hh, RunResult.requests] at h
        rw [h]
      · by_cases ht : env.timerCancelled = true
        · simp [run, hs, hh, ht, RunResult.requests] at h
          rw [h]
        · simp only [Bool.not_eq_true] at ht
          simp [run, hs, hh, ht, consRequest_requests] at h
          rcases h with h | h
          · rw [h]
          · exact ih h

end Network

namespace Network

theorem backoff_armTimer_inv {s : RequestsState} {now : Nat} {err : FuerteError}
    {res : Option WireResponse} {d : Nat}
    (h : s.backoff now err res = HandleStep.armTimer d) : d < s.endTime := by
  by_cases hc : s.endTime ≤ now + clampBackoff (now - s.startTime)
  · rw [backoff_terminate hc] at h
    simp at h
  · push_neg at hc
    rw [backoff_armTimer hc] at h
    simp at h
    omega

theorem handleResponse_armTimer_inv {s : RequestsState} {now : Nat}
    {err : FuerteError} {res : Option WireResponse} {d : Nat}
    (h : s.handleResponse now err res = HandleStep.armTimer d) : d < s.endTime := by
  cases err with
  | noError =>
    cases res with
    | none => simp [RequestsState.handleResponse] at h
    | some r =>
      simp only [RequestsState.handleResponse] at h
      split at h
      · simp at h
      · split at h
        · exact backoff_armTimer_inv h
        · simp at h
  | couldNotConnect => exact backoff_armTimer_inv h
  | timeout => exact backoff_armTimer_inv h
  | canceled => simp [RequestsState.handleResponse] at h
  | other code => simp [RequestsState.handleResponse] at h

end Network

/-- Retrying request used in concrete checks: destination "shard-1", payload
bytes [1, 2, 3], created at t = 0 with a 60 s timeout, retry-on-not-found
enabled. -/
def exampleState : Network.RequestsState :=
  Network.RequestsState.mk' "shard-1" [1, 2, 3] 0 60000 true

/-- Attempt environment: dispatch succeeds at t = 0, the transport reports
`CouldNotConnect`, and the armed retry timer is then cancelled. -/
def cancelEnv : Network.AttemptEnv :=
  ⟨0, false, true, true, 0, Network.FuerteError.couldNotConnect, none, true⟩

/-- Same attempt outcome as `cancelEnv`, but the retry timer fires. -/
def fireEnv : Network.AttemptEnv :=
  ⟨0, false, true, true, 0, Network.FuerteError.couldNotConnect, none, false⟩

/-- Attempt at t = 200 ms completing with HTTP 200. -/
def successEnv : Network.AttemptEnv :=
  ⟨200, false, true, true, 250, Network.FuerteError.noError, some ⟨200, 0⟩, false⟩

/-- Attempt environment observed at t = 70 s, past the 60 s deadline of
`exampleState`. -/
def expiredEnv : Network.AttemptEnv :=
  ⟨70000, false, true, true, 70000, Network.FuerteError.noError, none, false⟩

/-- Attempt environment in which the published connection-pool pointer is
null. -/
def noPoolEnv : Network.AttemptEnv :=
  ⟨0, false, true, false, 0, Network.FuerteError.noError, none, false⟩

/-- Retrying request created at t = 0 with a 1000 ms total timeout and
payload [7]. -/
def midState : Network.RequestsState :=
  Network.RequestsState.mk' "shard-1" [7] 0 1000 false

/-- An attempt of `midState` dispatched at t = 500 ms, halfway through the
budget. -/
def midEnv : Network.AttemptEnv :=
  ⟨500, false, true, true, 500, Network.FuerteError.noError, none, false⟩

/-- Retrying request created at t = 0 with a 300 ms total timeout. -/
def shortState : Network.RequestsState :=
  Network.RequestsState.mk' "shard-1" [] 0 300 false

/-- Claim C1 (code-bug evaluation): one dispatched attempt completes with a
retryable `CouldNotConnect`; the backoff timer is armed for t = 200 ms, well
before the 60 s deadline; the timer is then cancelled (the asio wait lambda
receives a non-zero error code, as on shutdown).  The run ends `dropped`:
the completion callback fires zero times, not exactly once — the
single-assignment promise is never fulfilled.  The source itself flags
this path with "TODO what about a shutdown, this will leak ??". -/
theorem sendRequestRetry_callback_dropped_on_timer_cancel :
    Network.run exampleState [cancelEnv] =
      Network.RunResult.dropped [⟨[1, 2, 3], 60000⟩] ∧
    (Network.run exampleState [cancelEnv]).cbCount = 0 :=
  ⟨rfl, rfl⟩

/-- Claim C2 (counterexample): `midState` has deadline 1000 ms; the attempt
dispatched at now = 500 ms hands the request builder the wire timeout
1000 ms (`_endTime - _startTime`), while the remaining budget
(deadline − now) is 500 ms — the claim's equality fails. -/
theorem wire_timeout_not_remaining_budget_counterexample :
    (midState.sendRequest midEnv).dispatched = some ⟨[7], 1000⟩ ∧
    midState.endTime - midEnv.now = 500 ∧ (1000 : Nat) ≠ 500 :=
  ⟨rfl, rfl, by decide⟩

/-- Claim C2 (amended): on every physical attempt of a retrying request, the
wire-level timeout handed to the request builder equals the caller's
original total timeout (`_endTime - _startTime`), identical on every
attempt — not the remaining budget. -/
theorem wire_timeout_equals_original_total (s : Network.RequestsState)
    (env : Network.AttemptEnv) (req : Network.WireRequest)
    (h : (s.sendRequest env).dispatched = some req) :
    req.timeoutMs = s.endTime - s.startTime := by
  rw [Network.sendRequest_dispatched_inv h]

/-- Witness for the amended C2 at a concrete dispatch. -/
theorem wire_timeout_equals_original_total_witness :
    (midState.sendRequest midEnv).dispatched = some ⟨[7], 1000⟩ ∧
    (⟨[7], 1000⟩ : Network.WireRequest).timeoutMs =
      midState.endTime - midState.startTime :=
  ⟨rfl, wire_timeout_equals_original_total midState midEnv ⟨[7], 1000⟩ rfl⟩

/-- Claim C3: for every retryable-classified completion the backoff delay is
`now − startTime` clamped to [200 ms, 10 s]; when `now + delay` reaches the
deadline the request terminates with the attempt's original unmodified error
and response; otherwise the one-shot timer is armed for `now + delay`, and
on fire the attempt loop is re-entered from its top (`sendRequest`). -/
theorem retry_backoff_policy (s : Network.RequestsState) (now : Nat)
    (err : Network.FuerteError) (res : Option Network.WireResponse)
    (h : Network.retryableOutcome s err res = true) :
    200 ≤ Network.clampBackoff (now - s.startTime) ∧
    Network.clampBackoff (now - s.startTime) ≤ 10000 ∧
    (s.endTime ≤ now + Network.clampBackoff (now - s.startTime) →
      s.handleResponse now err res =
        Network.HandleStep.terminate ⟨s.destination, err, res⟩) ∧
    (now + Network.clampBackoff (now - s.startTime) < s.endTime →
      s.handleResponse now err res =
        Network.HandleStep.armTimer
          (now + Network.clampBackoff (now - s.startTime))) ∧
    (∀ (env : Network.AttemptEnv) (rest : List Network.AttemptEnv)
        (req : Network.WireRequest) (d : Nat),
      (s.sendRequest env).immediate = none →
      (s.sendRequest env).dispatched = some req →
      s.handleResponse env.completionTime env.err env.res =
        Network.HandleStep.armTimer d →
      env.timerCancelled = false →
      Network.run s (env :: rest) =
        Network.RunResult.consRequest req (Network.run s rest)) := by
  refine ⟨Network.clampBackoff_lower _, Network.clampBackoff_upper _, ?_, ?_, ?_⟩
  · intro hd
    rw [Network.handleResponse_eq_backoff h]
    exact Network.backoff_terminate hd
  · intro hd
    rw [Network.handleResponse_eq_backoff h]
    exact Network.backoff_armTimer hd
  · intro env rest req d hI hD hH hT
    exact Network.run_reenters_on_timer_fire s env rest req d hI hD hH hT

/-- Witness for C3 at a concrete retryable completion: elapsed 0 is clamped
up to 200 ms and the timer is armed for t = 200 ms. -/
theorem retry_backoff_policy_witness :
    Network.retryableOutcome exampleState
      Network.FuerteError.couldNotConnect none = true ∧
    exampleState.handleResponse 0 Network.FuerteError.couldNotConnect none =
      Network.HandleStep.armTimer
        (0 + Network.clampBackoff (0 - exampleState.startTime)) :=
  ⟨rfl,
   (retry_backoff_policy exampleState 0 Network.FuerteError.couldNotConnect none
      rfl).2.2.2.1 (by decide)⟩

/-- Claim C4: classification of completions without transport error.  A
success status (OK / Created / Accepted / No-Content) terminates with
`NoError` carrying the response; the retryable Not-Found combination
(status 404, retry flag set, body error 1203) falls through to the backoff
block; every other status terminates immediately carrying the response with
no retry (the source delivers it under the `Canceled` code). -/
theorem handleResponse_status_classification (s : Network.RequestsState)
    (now : Nat) (r : Network.WireResponse) :
    (Network.isSuccessStatus r.statusCode = true →
      s.handleResponse now Network.FuerteError.noError (some r) =
        Network.HandleStep.terminate
          ⟨s.destination, Network.FuerteError.noError, some r⟩) ∧
    (Network.retryableNotFound s r = true →
      s.handleResponse now Network.FuerteError.noError (some r) =
        s.backoff now Network.FuerteError.noError (some r)) ∧
    (Network.isSuccessStatus r.statusCode = false →
      Network.retryableNotFound s r = false →
      s.handleResponse now Network.FuerteError.noError (some r) =
        Network.HandleStep.terminate
          ⟨s.destination, Network.FuerteError.canceled, some r⟩) := by
  refine ⟨?_, ?_, ?_⟩
  · intro hsucc
    simp [Network.RequestsState.handleResponse, hsucc]
  · intro hnf
    exact Network.handleResponse_eq_backoff hnf
  · intro hsucc hnf
    simp [Network.RequestsState.handleResponse, hsucc, hnf]

/-- Witness for C4 at a concrete HTTP 200 completion. -/
theorem handleResponse_status_classification_witness :
    Network.isSuccessStatus 200 = true ∧
    exampleState.handleResponse 250 Network.FuerteError.noError (some ⟨200, 0⟩) =
      Network.HandleStep.terminate
        ⟨"shard-1", Network.FuerteError.noError, some ⟨200, 0⟩⟩ :=
  ⟨rfl, (handleResponse_status_classification exampleState 250 ⟨200, 0⟩).1 rfl⟩

/-- Claim C5 (counterexample): `shortState` has deadline 300 ms.  A
`CouldNotConnect` completion at now = 200 ms computes due time 400 ms ≥
300 ms, so no timer is armed — but the request terminates carrying
`CouldNotConnect`, not the Timeout error code the claim requires. -/
theorem timer_timeout_outcome_counterexample :
    shortState.handleResponse 200 Network.FuerteError.couldNotConnect none =
      Network.HandleStep.terminate
        ⟨"shard-1", Network.FuerteError.couldNotConnect, none⟩ ∧
    Network.FuerteError.couldNotConnect ≠ Network.FuerteError.timeout :=
  ⟨rfl, by decide⟩

/-- Claim C5 (amended): a retry timer is armed only when its due time is
strictly before the absolute deadline; in every other retryable case the
request terminates immediately carrying the attempt's original error code
and response — which is the Timeout code only when the attempt itself timed
out. -/
theorem timer_armed_only_strictly_before_deadline (s : Network.RequestsState)
    (now : Nat) (err : Network.FuerteError) (res : Option Network.WireResponse) :
    (∀ d, s.handleResponse now err res = Network.HandleStep.armTimer d →
      d < s.endTime) ∧
    (Network.retryableOutcome s err res = true →
      s.endTime ≤ now + Network.clampBackoff (now - s.startTime) →
      s.handleResponse now err res =
        Network.HandleStep.terminate ⟨s.destination, err, res⟩) := by
  constructor
  · intro d h
    exact Network.handleResponse_armTimer_inv h
  · intro hr hdue
    rw [Network.handleResponse_eq_backoff hr]
    exact Network.backoff_terminate hdue

/-- Witness for the amended C5: the timer armed for t = 200 ms on
`exampleState` is indeed strictly before its 60 s deadline. -/
theorem timer_armed_only_strictly_before_deadline_witness :
    exampleState.handleResponse 0 Network.FuerteError.couldNotConnect none =
      Network.HandleStep.armTimer 200 ∧
    (200 : Nat) < exampleState.endTime :=
  ⟨rfl,
   (timer_armed_only_strictly_before_deadline exampleState 0
      Network.FuerteError.couldNotConnect none).1 200 rfl⟩

/-- Claim C6: when the clock at the top of an attempt is past the absolute
deadline, the attempt terminates immediately with the Timeout error code and
performs no destination resolution, no connection lease, and no network
send. -/
theorem deadline_expired_terminates_without_io (s : Network.RequestsState)
    (env : Network.AttemptEnv) (h : s.endTime < env.now) :
    s.sendRequest env =
      ⟨some ⟨s.destination, Network.FuerteError.timeout, none⟩,
       none, false, false⟩ := by
  simp [Network.RequestsState.sendRequest, h]

/-- Witness for C6: the attempt observed at t = 70 s against the 60 s
deadline terminates with Timeout and no I/O. -/
theorem deadline_expired_terminates_without_io_witness :
    exampleState.endTime < expiredEnv.now ∧
    exampleState.sendRequest expiredEnv =
      ⟨some ⟨"shard-1", Network.FuerteError.timeout, none⟩,
       none, false, false⟩ :=
  ⟨by decide,
   deadline_expired_terminates_without_io exampleState expiredEnv (by decide)⟩

/-- Claim C7: an attempt that reaches the pool check while the published
pool pointer is null terminates immediately with the Canceled error code and
attempts no lease; and `NetworkFeature::beginShutdown` publishes the null
pool pointer as its first action, before any pool teardown, so subsequent
dispatches observe pool unavailability rather than leasing into a stale
pool. -/
theorem pool_unavailable_terminates_canceled (s : Network.RequestsState)
    (env : Network.AttemptEnv)
    (h1 : ¬ s.endTime < env.now) (h2 : env.isStopping = false)
    (h3 : env.resolveOk = true) (h4 : env.poolAvailable = false) :
    s.sendRequest env =
      ⟨some ⟨s.destination, Network.FuerteError.canceled, none⟩,
       none, true, false⟩ ∧
    (∀ poolExists : Bool,
      (NetworkFeatureModel.beginShutdown poolExists).head? =
        some NetworkFeatureModel.ShutdownAction.publishNullPool) ∧
    NetworkFeatureModel.beginShutdown true =
      [NetworkFeatureModel.ShutdownAction.publishNullPool,
       NetworkFeatureModel.ShutdownAction.poolShutdown] := by
  refine ⟨?_, ?_, rfl⟩
  · simp [Network.RequestsState.sendRequest, h1, h2, h3, h4]
  · intro poolExists
    cases poolExists <;> rfl

/-- Witness for C7: a torn-down pool observed at t = 0 cancels the request
with no lease. -/
theorem pool_unavailable_terminates_canceled_witness :
    exampleState.sendRequest noPoolEnv =
      ⟨some ⟨"shard-1", Network.FuerteError.canceled, none⟩,
       none, true, false⟩ :=
  (pool_unavailable_terminates_canceled exampleState noPoolEnv
    (by decide) rfl rfl rfl).1

/-- Claim C8: every wire request dispatched during a run of the retrying
state machine carries exactly the payload stored at state-machine creation:
payload bytes are bit-identical on every physical attempt, because each
attempt rebuilds the request from the unchanged `_payload` buffer. -/
theorem payload_identical_across_attempts (s : Network.RequestsState)
    (envs : List Network.AttemptEnv) (req : Network.WireRequest)
    (h : req ∈ (Network.run s envs).requests) :
    req.payload = s.payload :=
  Network.run_requests_payload s envs req h

/-- Witness for C8: a two-attempt run (retry after `CouldNotConnect`, then
success) dispatches the same payload bytes both times. -/
theorem payload_identical_across_attempts_witness :
    (⟨[1, 2, 3], 60000⟩ : Network.WireRequest) ∈
      (Network.run exampleState [fireEnv, successEnv]).requests ∧
    (⟨[1, 2, 3], 60000⟩ : Network.WireRequest).payload = exampleState.payload :=
  ⟨by decide,
   payload_identical_across_attempts exampleState [fireEnv, successEnv]
     ⟨[1, 2, 3], 60000⟩ (by decide)⟩

/-- Claim C9: after `validateOptions` the IO-thread count equals
`min(1, max(8, n))`, and that expression is the constant 1 for every
configured input `n` — the clamp is inverted and the result is independent
of the configuration. -/
theorem io_thread_clamp_constant_one (o : NetworkFeatureModel.NetworkOptions) :
    (NetworkFeatureModel.validateOptions o).numIOThreads =
      min 1 (max 8 o.numIOThreads) ∧
    (NetworkFeatureModel.validateOptions o).numIOThreads = 1 := by
  constructor
  · rfl
  · show min 1 (max 8 o.numIOThreads) = 1
    omega

/-- Claim C10: the single-attempt entry point delivers the transport's error
code and the raw response unmodified — no status classification, no retry.
In particular a completed exchange whose HTTP status is 500 arrives with the
`NoError` transport code and the raw response, never mapped to Canceled or
Timeout. -/
theorem sendRequest_single_attempt_passthrough (destination : String)
    (env : Network.SingleEnv)
    (hp : env.poolAvailable = true) (hr : env.resolveOk = true) :
    Network.sendRequest destination env = ⟨destination, env.err, env.res⟩ := by
  simp [Network.sendRequest, hp, hr]

/-- Witness for C10: a completed exchange with HTTP 500 and `NoError`
transport code is delivered as `NoError` with the raw response. -/
theorem sendRequest_single_attempt_passthrough_witness :
    Network.sendRequest "shard-1"
        ⟨true, true, Network.FuerteError.noError, some ⟨500, 0⟩⟩ =
      ⟨"shard-1", Network.FuerteError.noError, some ⟨500, 0⟩⟩ ∧
    Network.FuerteError.noError ≠ Network.FuerteError.canceled ∧
    Network.FuerteError.noError ≠ Network.FuerteError.timeout :=
  ⟨sendRequest_single_attempt_passthrough "shard-1"
     ⟨true, true, Network.FuerteError.noError, some ⟨500, 0⟩⟩ rfl rfl,
   by decide, by decide⟩
